import Mathlib

/-!
Verification of the CSS selector builder (src/task/08-objects-tasks.js) and the
brace-expansion generator (src/task/10-katas-1-tasks.js).

JavaScript objects whose fields may be absent are modelled with `Option`; the
JavaScript truthiness tests used by the source (`if (this.elementName) …`) are
modelled by `truthyS` (a string field is truthy iff present and nonempty) and
`truthyL` (an array field is truthy iff present — JS arrays are always truthy).
A method that may `throw` returns the object state paired with an optional
thrown message, mirroring the statement order of the source: checks happen
before any mutation.
-/

/-- Builder state of one selector fragment: the six fields of the JS object. -/
structure Selector where
  elementName : Option String := none
  idName : Option String := none
  className : Option (List String) := none
  attrName : Option (List String) := none
  pseudoClassName : Option (List String) := none
  pseudoElementName : Option String := none
deriving DecidableEq, Repr

/-- JS truthiness of an optional string field: absent and `""` are falsy. -/
def truthyS : Option String → Bool
  | none => false
  | some s => !(s == "")

/-- JS truthiness of an optional array field: any array is truthy. -/
def truthyL : Option (List String) → Bool
  | none => false
  | some _ => true

/-- The duplicate-singleton message `err_E` thrown by the source. -/
def err_E : String :=
  "Element, id and pseudo-element should not occur more then one time inside the selector"

/-- The out-of-order message `err_S` thrown by the source. -/
def err_S : String :=
  "Selector parts should be arranged in the following order: element, id, class, attribute, pseudo-class, pseudo-element"

/-- `selectorPrototype.element`. -/
def Selector.element (s : Selector) (value : String) : Selector × Option String :=
  if truthyS s.elementName then (s, some err_E)
  else if truthyS s.idName || truthyL s.className || truthyL s.attrName ||
      truthyL s.pseudoClassName || truthyS s.pseudoElementName then (s, some err_S)
  else ({ s with elementName := some value }, none)

/-- `selectorPrototype.id`. -/
def Selector.id (s : Selector) (value : String) : Selector × Option String :=
  if truthyS s.idName then (s, some err_E)
  else if truthyL s.className || truthyL s.attrName ||
      truthyL s.pseudoClassName || truthyS s.pseudoElementName then (s, some err_S)
  else ({ s with idName := some value }, none)

/-- `selectorPrototype.class` (the JS name is a Lean keyword, hence `class_`). -/
def Selector.class_ (s : Selector) (value : String) : Selector × Option String :=
  if truthyL s.attrName || truthyL s.pseudoClassName || truthyS s.pseudoElementName then
    (s, some err_S)
  else if truthyL s.className then
    ({ s with className := some (s.className.getD [] ++ [value]) }, none)
  else ({ s with className := some [value] }, none)

/-- `selectorPrototype.attr`. -/
def Selector.attr (s : Selector) (value : String) : Selector × Option String :=
  if truthyL s.pseudoClassName || truthyS s.pseudoElementName then (s, some err_S)
  else if truthyL s.attrName then
    ({ s with attrName := some (s.attrName.getD [] ++ [value]) }, none)
  else ({ s with attrName := some [value] }, none)

/-- `selectorPrototype.pseudoClass`. -/
def Selector.pseudoClass (s : Selector) (value : String) : Selector × Option String :=
  if truthyS s.pseudoElementName then (s, some err_S)
  else if truthyL s.pseudoClassName then
    ({ s with pseudoClassName := some (s.pseudoClassName.getD [] ++ [value]) }, none)
  else ({ s with pseudoClassName := some [value] }, none)

/-- `selectorPrototype.pseudoElement`. -/
def Selector.pseudoElement (s : Selector) (value : String) : Selector × Option String :=
  if truthyS s.pseudoElementName then (s, some err_E)
  else ({ s with pseudoElementName := some value }, none)

/-- `selectorPrototype.stringify`: each category rendered only when truthy. -/
def Selector.stringify (s : Selector) : String :=
  (if truthyS s.elementName then s.elementName.getD "" else "") ++
  (if truthyS s.idName then "#" ++ s.idName.getD "" else "") ++
  (if truthyL s.className then "." ++ String.intercalate "." (s.className.getD []) else "") ++
  (if truthyL s.attrName then "[" ++ String.intercalate "," (s.attrName.getD []) ++ "]" else "") ++
  (if truthyL s.pseudoClassName then ":" ++ String.intercalate ":" (s.pseudoClassName.getD []) else "") ++
  (if truthyS s.pseudoElementName then "::" ++ s.pseudoElementName.getD "" else "")

/-- Facade `cssSelectorBuilder.element`: a fresh fragment with that field. -/
def cssSelectorBuilder.element (value : String) : Selector :=
  { elementName := some value }

/-- Facade `cssSelectorBuilder.id`. -/
def cssSelectorBuilder.id (value : String) : Selector :=
  { idName := some value }

/-- Facade `cssSelectorBuilder.class`. -/
def cssSelectorBuilder.class_ (value : String) : Selector :=
  { className := some [value] }

/-- Facade `cssSelectorBuilder.attr`. -/
def cssSelectorBuilder.attr (value : String) : Selector :=
  { attrName := some [value] }

/-- Facade `cssSelectorBuilder.pseudoClass`. -/
def cssSelectorBuilder.pseudoClass (value : String) : Selector :=
  { pseudoClassName := some [value] }

/-- Facade `cssSelectorBuilder.pseudoElement`. -/
def cssSelectorBuilder.pseudoElement (value : String) : Selector :=
  { pseudoElementName := some value }

/-- `PropertyGroup`: the wrapper returned by `combine`, holding a literal string. -/
structure PropertyGroup where
  data : String
deriving DecidableEq, Repr

/-- `PropertyGroup.stringify` returns the stored string. -/
def PropertyGroup.stringify (g : PropertyGroup) : String := g.data

/-- A renderable unit: either a selector fragment or a combined result. -/
inductive Renderable where
  | frag : Selector → Renderable
  | comb : PropertyGroup → Renderable
deriving DecidableEq, Repr

/-- Render either kind of unit. -/
def Renderable.stringify : Renderable → String
  | .frag s => s.stringify
  | .comb g => g.stringify

/-- `cssSelectorBuilder.combine`: joins the two rendered forms around the token. -/
def cssSelectorBuilder.combine (a : Renderable) (combinator : String) (b : Renderable) :
    PropertyGroup :=
  ⟨a.stringify ++ " " ++ combinator ++ " " ++ b.stringify⟩

/-!
Brace expansion (src/task/10-katas-1-tasks.js). JS strings are modelled as
`List Char`. The generator's loop is a step function on a state holding the
working array `myArr`, the last-seen opening-brace index `left` (which the
source never resets between scan passes), and the scan index `x`; the loop is
run with explicit fuel because the source can diverge.
-/

/-- A JS string, modelled as its character list. -/
abbrev Str := List Char

/-- JS `String.prototype.split(',')`: always at least one piece. -/
def splitComma : Str → List Str
  | [] => [[]]
  | c :: rest =>
    if c = ',' then [] :: splitComma rest
    else
      match splitComma rest with
      | [] => [[c]]
      | g :: gs => (c :: g) :: gs

/-- JS `String.prototype.substring(a, b)`: clamps to the length and swaps the
endpoints when `a > b`. -/
def jsSubstring (s : Str) (a b : Nat) : Str :=
  let a' := min a s.length
  let b' := min b s.length
  (s.drop (min a' b')).take (max a' b' - min a' b')

/-- JS `String.prototype.replace` with a plain-string pattern: replaces the
first occurrence only, and returns the string unchanged when there is none. -/
def replaceFirst (pat repl : Str) : Str → Str
  | [] => if pat.isPrefixOf ([] : Str) then repl else []
  | c :: rest =>
    if pat.isPrefixOf (c :: rest) then repl ++ (c :: rest).drop pat.length
    else c :: replaceFirst pat repl rest

/-- `if(myArr.indexOf(x)==-1) myArr.push(x)`. -/
def pushIfAbsent (acc : List Str) (x : Str) : List Str :=
  if x ∈ acc then acc else acc ++ [x]

/-- The inner `parse` helper: splits the located group content on commas,
substitutes each alternative into the current first string, removes that first
string and appends each variant not already present. -/
def parse (arr : List Str) (content : Str) : List Str :=
  let front := arr.headD []
  let alts := splitComma content
  let completed := alts.map (fun a => replaceFirst ('{' :: (content ++ ['}'])) a front)
  completed.foldl pushIfAbsent arr.tail

/-- The mutable state of `expandBraces`'s scanning loop. -/
structure ExpState where
  myArr : List Str
  left : Nat
  x : Nat
deriving DecidableEq, Repr

/-- One iteration of `for(let x = 0; myArr[0].indexOf('{')>-1; x++)`: either the
next state, or (when the first string has no opening brace) the yielded array. -/
def expandStep (st : ExpState) : ExpState ⊕ List Str :=
  let front := st.myArr.headD []
  if '{' ∈ front then
    match front.get? st.x with
    | some c =>
      if c = '{' then Sum.inl ⟨st.myArr, st.x, st.x + 1⟩
      else if c = '}' then
        Sum.inl ⟨parse st.myArr (jsSubstring front (st.left + 1) st.x), st.left, 1⟩
      else Sum.inl ⟨st.myArr, st.left, st.x + 1⟩
    | none => Sum.inl ⟨st.myArr, st.left, st.x + 1⟩
  else Sum.inr st.myArr

/-- Run the loop with the given fuel; `none` when the fuel runs out. -/
def expandLoop : Nat → ExpState → Option (List Str)
  | 0, _ => none
  | fuel + 1, st =>
    match expandStep st with
    | Sum.inr out => some out
    | Sum.inl st' => expandLoop fuel st'

/-- `expandBraces`, fuelled: the loop starts from `myArr = [str]`, `left = 0`,
`x = 0`, and on termination yields the working array in order. -/
def expandBraces (fuel : Nat) (str : Str) : Option (List Str) :=
  expandLoop fuel ⟨[str], 0, 0⟩

/-!
Spec-side rendering definitions, for comparison with `Selector.stringify`.
-/

/-- Rendering following the claim's words literally, where a category is
emitted whenever the field is present (set), regardless of JS truthiness. -/
def claimStringify (s : Selector) : String :=
  (match s.elementName with | some e => e | none => "") ++
  (match s.idName with | some i => "#" ++ i | none => "") ++
  (match s.className with | some l => "." ++ String.intercalate "." l | none => "") ++
  (match s.attrName with | some l => "[" ++ String.intercalate "," l ++ "]" | none => "") ++
  (match s.pseudoClassName with | some l => ":" ++ String.intercalate ":" l | none => "") ++
  (match s.pseudoElementName with | some p => "::" ++ p | none => "")

/-- Amended rendering of a singleton category: emitted only when the stored
string is nonempty (a field holding `""` is falsy in JS and renders nothing). -/
def renderSingleton (pre : String) : Option String → String
  | none => ""
  | some v => if v = "" then "" else pre ++ v

/-- Amended rendering of a list category: emitted once the list exists. -/
def renderList (pre sep : String) : Option (List String) → String
  | none => ""
  | some l => pre ++ String.intercalate sep l

/-- Amended rendering of the attribute category (bracketed). -/
def renderAttr : Option (List String) → String
  | none => ""
  | some l => "[" ++ String.intercalate "," l ++ "]"

/-- The amended rendering: category order fixed, truthy categories only. -/
def amendedStringify (s : Selector) : String :=
  renderSingleton "" s.elementName ++
  renderSingleton "#" s.idName ++
  renderList "." "." s.className ++
  renderAttr s.attrName ++
  renderList ":" ":" s.pseudoClassName ++
  renderSingleton "::" s.pseudoElementName

theorem truthy_render_singleton_bare (o : Option String) :
    (if truthyS o then o.getD "" else "") = renderSingleton "" o := by
  rcases o with _ | v
  · simp [truthyS, renderSingleton]
  · by_cases hv : v = "" <;> simp [truthyS, renderSingleton, hv]

theorem truthy_render_singleton (pre : String) (o : Option String) :
    (if truthyS o then pre ++ o.getD "" else "") = renderSingleton pre o := by
  rcases o with _ | v
  · simp [truthyS, renderSingleton]
  · by_cases hv : v = "" <;> simp [truthyS, renderSingleton, hv]

theorem truthy_render_list (pre sep : String) (o : Option (List String)) :
    (if truthyL o then pre ++ String.intercalate sep (o.getD []) else "") =
      renderList pre sep o := by
  rcases o with _ | l <;> simp [truthyL, renderList]

theorem truthy_render_attr (o : Option (List String)) :
    (if truthyL o then "[" ++ String.intercalate "," (o.getD []) ++ "]" else "") =
      renderAttr o := by
  rcases o with _ | l <;> simp [truthyL, renderAttr]

/-- C1 (counterexample): a fragment built by the facade with its id field set
(to the empty string) does not render as `'#'` followed by the id: the JS
truthiness test skips the whole category, so the claimed concatenation fails. -/
theorem stringify_claim_counterexample :
    (cssSelectorBuilder.id "").idName = some "" ∧
    Selector.stringify (cssSelectorBuilder.id "") = "" ∧
    claimStringify (cssSelectorBuilder.id "") = "#" ∧
    Selector.stringify (cssSelectorBuilder.id "") ≠ claimStringify (cssSelectorBuilder.id "") := by
  refine ⟨rfl, rfl, rfl, ?_⟩
  decide

/-- C1 (amended): `stringify` concatenates, in the fixed category order, the
element token, `#`+id, `.`+classes joined by `.`, `[`+attributes joined by
`,`+`]`, `:`+pseudo-classes joined by `:`, and `::`+pseudo-element, emitting a
category only when it is truthy (for singleton fields: set and nonempty; for
list fields: created); in particular the two spec examples render as claimed. -/
theorem stringify_renders_truthy_categories :
    (∀ s : Selector, s.stringify = amendedStringify s) ∧
    (((cssSelectorBuilder.element "a").attr "href$=\".png\"").2 = none ∧
      ((((cssSelectorBuilder.element "a").attr "href$=\".png\"").1.pseudoClass "focus").2 = none) ∧
      ((((cssSelectorBuilder.element "a").attr "href$=\".png\"").1.pseudoClass "focus").1.stringify
        = "a[href$=\".png\"]:focus")) ∧
    (((cssSelectorBuilder.id "main").class_ "container").2 = none ∧
      ((((cssSelectorBuilder.id "main").class_ "container").1.class_ "editable").2 = none) ∧
      ((((cssSelectorBuilder.id "main").class_ "container").1.class_ "editable").1.stringify
        = "#main.container.editable")) := by
  refine ⟨fun s => ?_, ⟨rfl, rfl, rfl⟩, ⟨rfl, rfl, rfl⟩⟩
  simp only [Selector.stringify, amendedStringify, truthy_render_singleton_bare,
    truthy_render_singleton, truthy_render_list, truthy_render_attr]

/-- C2 (counterexample): `element('')` sets the element field, yet a second
`element` call on the same fragment raises nothing — the duplicate check tests
JS truthiness and the empty string is falsy — and instead overwrites the field. -/
theorem singleton_duplicate_empty_counterexample :
    (cssSelectorBuilder.element "").elementName = some "" ∧
    ((cssSelectorBuilder.element "").element "a").2 = none ∧
    ((cssSelectorBuilder.element "").element "a").1.elementName = some "a" := by
  refine ⟨rfl, rfl, rfl⟩

/-- C2 (amended): calling `element`, `id` or `pseudoElement` when that same
singleton field already holds a nonempty (truthy) string raises the
duplicate-singleton error synchronously at that call, and a successful call
sets the field (so the returned fragment chains further). -/
theorem singleton_duplicate_truthy (s : Selector) (v : String) :
    (truthyS s.elementName = true → (s.element v).2 = some err_E) ∧
    ((s.element v).2 = none → (s.element v).1.elementName = some v) ∧
    (truthyS s.idName = true → (s.id v).2 = some err_E) ∧
    ((s.id v).2 = none → (s.id v).1.idName = some v) ∧
    (truthyS s.pseudoElementName = true → (s.pseudoElement v).2 = some err_E) ∧
    ((s.pseudoElement v).2 = none → (s.pseudoElement v).1.pseudoElementName = some v) := by
  refine ⟨?_, ?_, ?_, ?_, ?_, ?_⟩
  · intro h; simp [Selector.element, h]
  · intro h; unfold Selector.element at *; split_ifs at h ⊢ ; simp_all
  · intro h; simp [Selector.id, h]
  · intro h; unfold Selector.id at *; split_ifs at h ⊢ ; simp_all
  · intro h; simp [Selector.pseudoElement, h]
  · intro h; unfold Selector.pseudoElement at *; split_ifs at h ⊢ ; simp_all

/-- C2 (witness): a second `element` call after `element('a')` raises `err_E`. -/
theorem singleton_duplicate_truthy_witness :
    ((cssSelectorBuilder.element "a").element "b").2 = some err_E :=
  (singleton_duplicate_truthy (cssSelectorBuilder.element "a") "b").1 (by decide)

/-- C3 (counterexample): with the id field (a later category than element) set
by `id('')`, a subsequent `element` call raises nothing — the out-of-order
check tests JS truthiness and the empty string is falsy — and succeeds. -/
theorem out_of_order_empty_counterexample :
    (cssSelectorBuilder.id "").idName = some "" ∧
    ((cssSelectorBuilder.id "").element "a").2 = none ∧
    ((cssSelectorBuilder.id "").element "a").1.elementName = some "a" := by
  refine ⟨rfl, rfl, rfl⟩

/-- C3 (amended): calling an earlier-category builder method while some field
of a strictly later category holds a truthy value (nonempty string for the
singletons; any created list for class/attr/pseudo-class) raises an error
synchronously at that call — the out-of-order error, except that `element` and
`id` raise the duplicate error first when their own field is already truthy; in
particular `id` after `class` always raises the out-of-order error. -/
theorem out_of_order_truthy (s : Selector) (v : String) :
    ((truthyS s.idName || truthyL s.className || truthyL s.attrName ||
        truthyL s.pseudoClassName || truthyS s.pseudoElementName) = true →
      (s.element v).2 ≠ none ∧
        (truthyS s.elementName = false → (s.element v).2 = some err_S)) ∧
    ((truthyL s.className || truthyL s.attrName || truthyL s.pseudoClassName ||
        truthyS s.pseudoElementName) = true →
      (s.id v).2 ≠ none ∧ (truthyS s.idName = false → (s.id v).2 = some err_S)) ∧
    ((truthyL s.attrName || truthyL s.pseudoClassName || truthyS s.pseudoElementName) = true →
      (s.class_ v).2 = some err_S) ∧
    ((truthyL s.pseudoClassName || truthyS s.pseudoElementName) = true →
      (s.attr v).2 = some err_S) ∧
    (truthyS s.pseudoElementName = true → (s.pseudoClass v).2 = some err_S) ∧
    (∀ u w : String, ((cssSelectorBuilder.class_ u).id w).2 = some err_S) := by
  refine ⟨?_, ?_, ?_, ?_, ?_, ?_⟩
  · intro h
    by_cases he : truthyS s.elementName <;> simp [Selector.element, he, h]
  · intro h
    by_cases hi : truthyS s.idName <;> simp [Selector.id, hi, h]
  · intro h; simp [Selector.class_, h]
  · intro h; simp [Selector.attr, h]
  · intro h; simp [Selector.pseudoClass, h]
  · intro u w; rfl

/-- C3 (witness): `id('main')` after `class('container')` raises `err_S`. -/
theorem out_of_order_truthy_witness :
    ((cssSelectorBuilder.class_ "container").id "main").2 = some err_S :=
  ((out_of_order_truthy (cssSelectorBuilder.class_ "container") "main").2.1
    (by decide)).2 (by decide)

/-- C8: `combine` renders both units and joins them with single spaces around
the combinator token; the wrapper can itself be combined again, and the
concrete spec example renders as claimed. -/
theorem combine_stringify_spec :
    (∀ (a b : Renderable) (t : String),
      (cssSelectorBuilder.combine a t b).stringify =
        a.stringify ++ " " ++ t ++ " " ++ b.stringify) ∧
    (∀ (a b c : Renderable) (t u : String),
      (cssSelectorBuilder.combine
          (Renderable.comb (cssSelectorBuilder.combine a t b)) u c).stringify =
        a.stringify ++ " " ++ t ++ " " ++ b.stringify ++ " " ++ u ++ " " ++ c.stringify) ∧
    (((cssSelectorBuilder.element "div").id "main").2 = none ∧
      ((cssSelectorBuilder.element "table").id "data").2 = none ∧
      (cssSelectorBuilder.combine
          (Renderable.frag ((cssSelectorBuilder.element "div").id "main").1) "+"
          (Renderable.frag ((cssSelectorBuilder.element "table").id "data").1)).stringify =
        "div#main + table#data") := by
  exact ⟨fun a b t => rfl, fun a b c t u => rfl, rfl, rfl, rfl⟩

/-- C10: every builder method is atomic with respect to errors: whenever a
call returns a thrown message, the fragment's fields are exactly as before. -/
theorem selector_methods_atomic_on_error (s : Selector) (v : String) :
    ((s.element v).2 ≠ none → (s.element v).1 = s) ∧
    ((s.id v).2 ≠ none → (s.id v).1 = s) ∧
    ((s.class_ v).2 ≠ none → (s.class_ v).1 = s) ∧
    ((s.attr v).2 ≠ none → (s.attr v).1 = s) ∧
    ((s.pseudoClass v).2 ≠ none → (s.pseudoClass v).1 = s) ∧
    ((s.pseudoElement v).2 ≠ none → (s.pseudoElement v).1 = s) := by
  refine ⟨?_, ?_, ?_, ?_, ?_, ?_⟩
  · intro h; unfold Selector.element at *; split_ifs at h ⊢ <;> simp_all
  · intro h; unfold Selector.id at *; split_ifs at h ⊢ <;> simp_all
  · intro h; unfold Selector.class_ at *; split_ifs at h ⊢ <;> simp_all
  · intro h; unfold Selector.attr at *; split_ifs at h ⊢ <;> simp_all
  · intro h; unfold Selector.pseudoClass at *; split_ifs at h ⊢ <;> simp_all
  · intro h; unfold Selector.pseudoElement at *; split_ifs at h ⊢ <;> simp_all

/-- C10 (witness): the erroring call `class('container')` then `id('main')`
leaves the fragment exactly as built. -/
theorem selector_methods_atomic_on_error_witness :
    ((cssSelectorBuilder.class_ "container").id "main").1 =
      cssSelectorBuilder.class_ "container" :=
  (selector_methods_atomic_on_error (cssSelectorBuilder.class_ "container") "main").2.1
    (by decide)

/-- C4: an input containing no brace characters never enters the expansion
loop and is yielded unchanged as the sole result. -/
theorem expandBraces_no_brace_identity (s : Str) (n : Nat)
    (h1 : '{' ∉ s) (_h2 : '}' ∉ s) :
    expandBraces (n + 1) s = some [s] := by
  have hstep : expandStep ⟨[s], 0, 0⟩ = Sum.inr [s] := by
    simp [expandStep, h1]
  simp [expandBraces, expandLoop, hstep]

/-- C4 (witness): the brace-free spec example. -/
theorem expandBraces_no_brace_identity_witness :
    expandBraces 1 ("nothing to do".toList) = some ["nothing to do".toList] :=
  expandBraces_no_brace_identity ("nothing to do".toList) 0 (by decide) (by decide)

/-- C5: adjacent groups expand to the cross-product — the spec example yields
exactly the six claimed combinations (here even in the claimed order). -/
theorem expandBraces_cross_product_example :
    expandBraces 100000 ("~/{Downloads,Pictures}/*.{jpg,gif,png}".toList) =
      some (["~/Downloads/*.jpg", "~/Downloads/*.gif", "~/Downloads/*.png",
             "~/Pictures/*.jpg", "~/Pictures/*.gif", "~/Pictures/*.png"].map
        String.toList) := by
  rfl

/-- C6: nested groups resolve inside out — the two nested spec examples yield
exactly the claimed sets: the first in scan order, a permutation of the order
the claim lists, the second exactly as listed. -/
theorem expandBraces_nested_examples :
    (expandBraces 100000 ("It{{em,alic}iz,erat}e{d,}, please.".toList) =
      some (["Itemized, please.", "Itemize, please.", "Iterated, please.",
             "Iterate, please.", "Italicized, please.", "Italicize, please."].map
        String.toList)) ∧
    List.Perm
      (["Itemized, please.", "Itemize, please.", "Iterated, please.",
        "Iterate, please.", "Italicized, please.", "Italicize, please."].map String.toList)
      (["Itemized, please.", "Itemize, please.", "Italicized, please.",
        "Italicize, please.", "Iterated, please.", "Iterate, please."].map String.toList) ∧
    (expandBraces 100000 ("thumbnail.{png,jp{e,}g}".toList) =
      some (["thumbnail.png", "thumbnail.jpeg", "thumbnail.jpg"].map String.toList)) := by
  refine ⟨rfl, by decide, rfl⟩

/-- Advancing the loop by one non-terminating step. -/
theorem expandLoop_inl {st st' : ExpState} (h : expandStep st = Sum.inl st') (n : Nat) :
    expandLoop (n + 1) st = expandLoop n st' := by
  simp only [expandLoop, h]

/-- From the state reached on input `'{{a}}'` after four iterations, the loop
cycles between two states forever: the stale `left = 1` makes the scan extract
the content `''` and attempt to replace the absent pattern `'{}'`, so the
working array never changes. -/
theorem expandLoop_stuck_cycle (n : Nat) :
    expandLoop n ⟨["{a}".toList], 1, 1⟩ = none ∧
    expandLoop n ⟨["{a}".toList], 1, 2⟩ = none := by
  induction n with
  | zero => exact ⟨rfl, rfl⟩
  | succ k ih =>
    have h1 : expandStep ⟨["{a}".toList], 1, 1⟩ = Sum.inl ⟨["{a}".toList], 1, 2⟩ := by decide
    have h2 : expandStep ⟨["{a}".toList], 1, 2⟩ = Sum.inl ⟨["{a}".toList], 1, 1⟩ := by decide
    exact ⟨(expandLoop_inl h1 k).trans ih.2, (expandLoop_inl h2 k).trans ih.1⟩

/-- C7: `expandBraces` diverges on the balanced input `'{{a}}'`: whatever the
fuel, the loop never yields — refuting termination for all balanced inputs. -/
theorem expandBraces_diverges_on_nested_group (fuel : Nat) :
    expandBraces fuel ("{{a}}".toList) = none := by
  have h0 : expandStep ⟨["{{a}}".toList], 0, 0⟩ = Sum.inl ⟨["{{a}}".toList], 0, 1⟩ := by decide
  have h1 : expandStep ⟨["{{a}}".toList], 0, 1⟩ = Sum.inl ⟨["{{a}}".toList], 1, 2⟩ := by decide
  have h2 : expandStep ⟨["{{a}}".toList], 1, 2⟩ = Sum.inl ⟨["{{a}}".toList], 1, 3⟩ := by decide
  have h3 : expandStep ⟨["{{a}}".toList], 1, 3⟩ = Sum.inl ⟨["{a}".toList], 1, 1⟩ := by decide
  have t3 : ∀ n, expandLoop n ⟨["{{a}}".toList], 1, 3⟩ = none := by
    intro n; rcases n with _ | m
    · rfl
    · exact (expandLoop_inl h3 m).trans (expandLoop_stuck_cycle m).1
  have t2 : ∀ n, expandLoop n ⟨["{{a}}".toList], 1, 2⟩ = none := by
    intro n; rcases n with _ | m
    · rfl
    · exact (expandLoop_inl h2 m).trans (t3 m)
  have t1 : ∀ n, expandLoop n ⟨["{{a}}".toList], 0, 1⟩ = none := by
    intro n; rcases n with _ | m
    · rfl
    · exact (expandLoop_inl h1 m).trans (t2 m)
  rcases fuel with _ | m
  · rfl
  · exact (expandLoop_inl h0 m).trans (t1 m)

/-- Pushing with a membership guard preserves freedom from duplicates. -/
theorem pushIfAbsent_nodup (acc : List Str) (x : Str) (h : acc.Nodup) :
    (pushIfAbsent acc x).Nodup := by
  unfold pushIfAbsent
  split
  · exact h
  · next hx => simp [List.nodup_append, h, hx]

/-- Folding guarded pushes over any list preserves freedom from duplicates. -/
theorem foldl_pushIfAbsent_nodup (l : List Str) : ∀ acc : List Str, acc.Nodup →
    (l.foldl pushIfAbsent acc).Nodup := by
  induction l with
  | nil => intro acc h; exact h
  | cons x xs ih => intro acc h; exact ih _ (pushIfAbsent_nodup acc x h)

/-- `parse` keeps the working array duplicate-free. -/
theorem parse_nodup (arr : List Str) (content : Str) (h : arr.Nodup) :
    (parse arr content).Nodup := by
  unfold parse
  exact foldl_pushIfAbsent_nodup _ _ ((List.tail_sublist arr).nodup h)

/-- A non-terminating step keeps the working array duplicate-free. -/
theorem expandStep_inl_nodup {st st' : ExpState} (h : expandStep st = Sum.inl st')
    (hn : st.myArr.Nodup) : st'.myArr.Nodup := by
  simp only [expandStep] at h
  split at h
  · split at h
    · split at h
      · injection h with h; subst h; exact hn
      · split at h
        · injection h with h; subst h; exact parse_nodup _ _ hn
        · injection h with h; subst h; exact hn
    · injection h with h; subst h; exact hn
  · exact Sum.noConfusion h

/-- The yielded array is the duplicate-free working array. -/
theorem expandStep_inr_nodup {st : ExpState} {out : List Str}
    (h : expandStep st = Sum.inr out) (hn : st.myArr.Nodup) : out.Nodup := by
  simp only [expandStep] at h
  split at h
  · split at h
    · split at h
      · exact Sum.noConfusion h
      · split at h
        · exact Sum.noConfusion h
        · exact Sum.noConfusion h
    · exact Sum.noConfusion h
  · injection h with h; subst h; exact hn

/-- Whenever the loop yields, the result is duplicate-free. -/
theorem expandLoop_nodup : ∀ (fuel : Nat) (st : ExpState) (out : List Str),
    expandLoop fuel st = some out → st.myArr.Nodup → out.Nodup := by
  intro fuel
  induction fuel with
  | zero => intro st out h; exact absurd h (by simp [expandLoop])
  | succ k ih =>
    intro st out h hn
    rw [expandLoop] at h
    cases hstep : expandStep st with
    | inl st' =>
      rw [hstep] at h
      exact ih st' out h (expandStep_inl_nodup hstep hn)
    | inr o =>
      rw [hstep] at h
      injection h with h; subst h
      exact expandStep_inr_nodup hstep hn

/-- C9: whenever `expandBraces` terminates, the yielded sequence has no
duplicate strings — the `indexOf == -1` guard enforces set semantics. -/
theorem expandBraces_output_nodup (s : Str) (fuel : Nat) (out : List Str)
    (h : expandBraces fuel s = some out) : out.Nodup :=
  expandLoop_nodup fuel ⟨[s], 0, 0⟩ out h (by simp)

/-- C9 (witness): `'a{b,b}c'` produces the resolved string `'abc'` along both
expansion paths, and it is yielded only once. -/
theorem expandBraces_output_nodup_witness :
    (["abc".toList] : List Str).Nodup :=
  expandBraces_output_nodup ("a{b,b}c".toList) 100 ["abc".toList] rfl
